import Mathlib

/-!
Verification development for the upload orchestration core of the `ben`
repository: capacity gate, upload stager, background replicator,
progress tracker, multipart coordinator and storage client provider.
Each Python function is shallowly embedded as an executable Lean
definition; theorems below settle the specification claims against
these definitions.
-/

set_option maxRecDepth 4096

namespace Ben

/-- Ceiling division on naturals, the embedding of Python `math.ceil(a / b)`
for nonnegative integers. -/
def ceilDiv (a b : Nat) : Nat := (a + b - 1) / b

/-- Embedding of `calculate_part_size` from
`src/repositories/multipart_methods.py` (identical in
`multipart_methods_clean.py`): tiered default part size, clamp to the
provider limits, then a recompute when the part count exceeds
`max_parts`. -/
def calculate_part_size (file_size : Nat) (max_parts : Nat) : Nat × Nat :=
  let MIN_PART_SIZE := 5 * 1024 * 1024
  let MAX_PART_SIZE := 5 * 1024 * 1024 * 1024
  let part_size :=
    if file_size < 100 * 1024 * 1024 then 10 * 1024 * 1024
    else if file_size < 1 * 1024 * 1024 * 1024 then 100 * 1024 * 1024
    else if file_size < 10 * 1024 * 1024 * 1024 then 500 * 1024 * 1024
    else 1 * 1024 * 1024 * 1024
  let part_size := max MIN_PART_SIZE (min part_size MAX_PART_SIZE)
  let total_parts := ceilDiv file_size part_size
  if total_parts > max_parts then (ceilDiv file_size max_parts, max_parts)
  else (part_size, total_parts)

/-- Embedding of `StorageProvider` from `src/models/dumapod.py`. -/
inductive StorageProvider where
  | aws_s3
  | wasabi
  | oracle_os
deriving DecidableEq, Repr

/-- String value of a provider, as in the Python enum. -/
def StorageProvider.value : StorageProvider → String
  | .aws_s3 => "aws_s3"
  | .wasabi => "wasabi"
  | .oracle_os => "oracle_object_storage"

/-- Embedding of the `DumaStoredFile` row
(`src/models/duma_stored_file.py`). The `multipartUploadId` field is
modelled from the spec: the multipart service in
`src/services/multipart_service_methods.py` reads and writes a
`multipart_upload_id` column that the model file under src/ does not
declare; the spec data model lists the multipart upload session id. -/
structure DumaStoredFile where
  id : Nat
  dumapod_id : Nat
  user_id : Nat
  file_name : String
  file_type : String
  file_size : Nat
  upload_status : String
  failed_reason : Option String
  s3_url : Option String
  wasabi_url : Option String
  oracle_url : Option String
  multipartUploadId : Option String
deriving DecidableEq, Repr

/-- Embedding of `DumaStoredFileRepository.get_total_usage`
(`src/repositories/duma_stored_file_repo.py`): sum of `file_size` over
the records of the pod whose `upload_status` is not `failed`. -/
def get_total_usage (recs : List DumaStoredFile) (dumapod_id : Nat) : Nat :=
  ((recs.filter fun r =>
      r.dumapod_id == dumapod_id && r.upload_status != "failed").map
    (fun r => r.file_size)).sum

/-- Embedding of `DumaStoredFileRepository.update_file_status_and_urls`
(`src/repositories/duma_stored_file_repo.py`): sets `upload_status`
unconditionally and each URL column only when a value is supplied. -/
def update_file_status_and_urls (recs : List DumaStoredFile) (file_id : Nat)
    (stat : String) (s3_url wasabi_url oracle_url : Option String) :
    List DumaStoredFile :=
  recs.map fun r =>
    if r.id == file_id then
      { r with
        upload_status := stat
        s3_url := match s3_url with | some u => some u | none => r.s3_url
        wasabi_url := match wasabi_url with | some u => some u | none => r.wasabi_url
        oracle_url := match oracle_url with | some u => some u | none => r.oracle_url }
    else r

/-- Modelled from the spec: the multipart service calls a revision of
`DumaStoredFileRepository.update_file_status_and_urls` that also accepts
a `failed_reason` keyword; that revision is not under src/ (the version
in `src/repositories/duma_stored_file_repo.py` lacks the parameter).
Following the spec, the record transitions to the given status with the
captured reason persisted when one is supplied. -/
def update_file_status_urls_reason (recs : List DumaStoredFile)
    (file_id : Nat) (stat : String) (s3_url : Option String)
    (failed_reason : Option String) : List DumaStoredFile :=
  recs.map fun r =>
    if r.id == file_id then
      { r with
        upload_status := stat
        s3_url := match s3_url with | some u => some u | none => r.s3_url
        failed_reason :=
          match failed_reason with | some m => some m | none => r.failed_reason }
    else r

/-- Application settings consumed by the validators
(`src/config`): MIME allow-list and maximum size in bytes. -/
structure AppSettings where
  allowed_file_types : List String
  max_file_size_bytes : Nat

/-- The metadata of an incoming `UploadFile`: declared MIME type and the
declared transfer size (absent when unknown). -/
structure UploadMeta where
  content_type : String
  size : Option Nat

/-- Validation outcomes of `src/middleware/validation.py`. -/
inductive ValErr where
  | unsupportedMediaType
  | payloadTooLarge
deriving DecidableEq, Repr

/-- Embedding of `validate_file_type` (`src/middleware/validation.py`):
rejects a MIME type outside the configured allow-list. -/
def validate_file_type (st : AppSettings) (f : UploadMeta) :
    Except ValErr Unit :=
  if f.content_type ∈ st.allowed_file_types then .ok ()
  else .error .unsupportedMediaType

/-- Embedding of `validate_file_size` (`src/middleware/validation.py`):
the Python guard `file.size and file.size > max` only fires for a known,
nonzero size above the maximum; a zero or unknown size passes. -/
def validate_file_size (st : AppSettings) (f : UploadMeta) :
    Except ValErr Unit :=
  match f.size with
  | some s =>
      if s ≠ 0 ∧ st.max_file_size_bytes < s then .error .payloadTooLarge
      else .ok ()
  | none => .ok ()

/-- Embedding of `validate_file_upload` (`src/middleware/validation.py`):
type check then size check. -/
def validate_file_upload (st : AppSettings) (f : UploadMeta) :
    Except ValErr Unit :=
  match validate_file_type st f with
  | .error e => .error e
  | .ok _ => validate_file_size st f

/-- Errors surfaced synchronously by `FileService.stage_upload`. -/
inductive StageError where
  | validation (e : ValErr)
  | capacityExceeded
deriving DecidableEq, Repr

/-- Result of staging: the synchronous response, the resulting record
store, and the storage-provider calls made during staging. -/
structure StageResult where
  response : Except StageError Nat
  records : List DumaStoredFile
  providerCalls : List StorageProvider
deriving Repr

/-- Embedding of `FileService.stage_upload`
(`src/services/file_service.py`): validate, compute the pod usage via
`get_total_usage`, reject when `usage + file_size` exceeds
`storage_capacity_gb * 1024^3`, otherwise create a `pending` record.
The staging path makes no storage-provider call; `content_len` is the
byte length of the read body (`len(file_content)`). -/
def stage_upload (st : AppSettings) (recs : List DumaStoredFile)
    (user_id dumapod_id : Nat) (storage_capacity_gb : Nat) (f : UploadMeta)
    (file_name : String) (content_len : Nat) (new_id : Nat) : StageResult :=
  match validate_file_upload st f with
  | .error e => ⟨.error (.validation e), recs, []⟩
  | .ok _ =>
    let file_size := content_len
    let current_usage_bytes := get_total_usage recs dumapod_id
    let capacity_bytes := storage_capacity_gb * 1024 * 1024 * 1024
    if capacity_bytes < current_usage_bytes + file_size then
      ⟨.error .capacityExceeded, recs, []⟩
    else
      ⟨.ok new_id,
        recs ++ [{ id := new_id
                   dumapod_id := dumapod_id
                   user_id := user_id
                   file_name := file_name
                   file_type := f.content_type
                   file_size := file_size
                   upload_status := "pending"
                   failed_reason := none
                   s3_url := none
                   wasabi_url := none
                   oracle_url := none
                   multipartUploadId := none }],
        []⟩

/-- Embedding of the `StorageCredential` row (`src/models/credential.py`)
as consumed by the storage repository. -/
structure ProviderCredential where
  access_key : String
  secret_key : String
  bucket_name : String
  endpoint_url : Option String
  region : Option String
deriving DecidableEq, Repr

/-- A boto3 client handle as resolved by
`StorageRepository._get_client`: the cached, globally configured client
of a provider. The intended transient custom-credentials client is never
constructed, because that branch of the source raises `NameError` (see
`get_client`). -/
inductive S3Client where
  | fromSettings (provider : String)
deriving DecidableEq, Repr

/-- Embedding of `StorageRepository._get_client`
(`src/repositories/storage_repo.py`). The module imports neither
`Config` nor `settings` (only `storage_repo_backup.py` does), so the
custom-credentials branch always raises a `NameError` while evaluating
the `boto3.client` keyword arguments, before any client is constructed:
on `settings` when the stored region is falsy (the
`credentials.region or settings.aws_region` expression), otherwise on
`Config` in the `config=Config(...)` argument. The no-credentials path
with a falsy provider likewise hits the unimported `settings`; with a
provider given, the per-provider cache is filled lazily as in the
source. -/
def get_client (cache : List (String × S3Client)) (provider : Option String)
    (credentials : Option ProviderCredential) :
    Except String (S3Client × List (String × S3Client)) :=
  match credentials with
  | some c =>
      match c.region with
      | none => .error "NameError: name settings is not defined"
      | some r =>
          if r = "" then .error "NameError: name settings is not defined"
          else .error "NameError: name Config is not defined"
  | none =>
      match provider with
      | none => .error "NameError: name settings is not defined"
      | some pv =>
          if pv = "" then .error "NameError: name settings is not defined"
          else
            let p := pv.toLower
            match cache.lookup p with
            | some cl => .ok (cl, cache)
            | none =>
                .ok (S3Client.fromSettings p,
                  (p, S3Client.fromSettings p) :: cache)

/-- The per-provider enable and custom-credential flags of a `DumaPod`
(`src/models/dumapod.py`) used by the background replicator. -/
structure PodFlags where
  enable_s3 : Bool
  enable_wasabi : Bool
  enable_oracle_os : Bool
  use_custom_s3 : Bool
  use_custom_wasabi : Bool
  use_custom_oracle : Bool
deriving DecidableEq, Repr

/-- One entry of `providers_to_upload` in
`FileService.process_background_upload`. -/
structure ProviderConfig where
  provider : StorageProvider
  credentials : Option ProviderCredential
deriving DecidableEq, Repr

/-- Embedding of the local helper `prepare_provider` in
`FileService.process_background_upload`
(`src/services/file_service.py`): a provider that does not use custom
credentials is kept with none; one that does is skipped when no stored
credential exists. -/
def prepare_provider (stored_creds : StorageProvider → Option ProviderCredential)
    (p : StorageProvider) (use_custom : Bool) : Option ProviderConfig :=
  if !use_custom then some ⟨p, none⟩
  else
    match stored_creds p with
    | none => none
    | some c => some ⟨p, some c⟩

/-- Embedding of the `providers_to_upload` accumulation in
`FileService.process_background_upload`. -/
def providers_to_upload (pod : PodFlags)
    (stored_creds : StorageProvider → Option ProviderCredential) :
    List ProviderConfig :=
  (if pod.enable_s3 then
    (prepare_provider stored_creds .aws_s3 pod.use_custom_s3).toList
  else []) ++
  (if pod.enable_wasabi then
    (prepare_provider stored_creds .wasabi pod.use_custom_wasabi).toList
  else []) ++
  (if pod.enable_oracle_os then
    (prepare_provider stored_creds .oracle_os pod.use_custom_oracle).toList
  else [])

/-- Outcome of one background-replicator run: the resulting record store
and the providers whose SDK upload was started. -/
structure BgResult where
  records : List DumaStoredFile
  sdkCalls : List StorageProvider
deriving DecidableEq, Repr

/-- The URL the replicator persists for a provider configuration:
`f"{provider}://{bucket}/{key}"`, with the bucket taken from the custom
credential when present, else the default bucket of the provider. -/
def upload_url_for (default_bucket : StorageProvider → String)
    (storage_key : String) (c : ProviderConfig) : String :=
  let bucket :=
    match c.credentials with
    | some cr => cr.bucket_name
    | none => default_bucket c.provider
  c.provider.value ++ "://" ++ bucket ++ "/" ++ storage_key

/-- Embedding of `FileService.process_background_upload`
(`src/services/file_service.py`): resolve the eligible providers; with
none, print and return with no record update and no SDK call; otherwise
fetch the record (return when absent), start all uploads via
`asyncio.gather`, and since the gather is awaited without
`return_exceptions`, any failing upload raises into the outer handler
which sets the status to `failed` with no URLs; only when every upload
succeeds is the record updated to `completed` with the gathered URLs.
`upload_ok p` tells whether the SDK upload to provider `p` succeeds. -/
def process_background_upload (recs : List DumaStoredFile) (file_id : Nat)
    (pod : PodFlags)
    (stored_creds : StorageProvider → Option ProviderCredential)
    (upload_ok : StorageProvider → Bool)
    (default_bucket : StorageProvider → String) (storage_key : String) :
    BgResult :=
  let ps := providers_to_upload pod stored_creds
  if ps.isEmpty then ⟨recs, []⟩
  else
    match recs.find? (fun r => r.id == file_id) with
    | none => ⟨recs, []⟩
    | some _ =>
      let calls := ps.map (fun c => c.provider)
      if ps.all (fun c => upload_ok c.provider) then
        let urlOf := fun (p : StorageProvider) =>
          (ps.find? (fun c => c.provider == p)).map
            (upload_url_for default_bucket storage_key)
        ⟨update_file_status_and_urls recs file_id "completed"
          (urlOf .aws_s3) (urlOf .wasabi) (urlOf .oracle_os), calls⟩
      else
        ⟨update_file_status_and_urls recs file_id "failed" none none none,
          calls⟩

/-- State of the `ProgressTracker` inner class of
`FileService.process_background_upload`. -/
structure TrackerState where
  uploaded : Nat
  last_percent : Nat
  last_update_time : Nat
deriving DecidableEq, Repr

/-- The percent computed by `ProgressTracker.__call__`:
`int((uploaded / total_size) * 100)`. -/
def trackerPercent (total uploaded : Nat) : Nat := uploaded * 100 / total

/-- Embedding of `ProgressTracker.__call__`
(`src/services/file_service.py`): accumulate the transferred bytes,
publish when the percent reached 100 and was not yet published, or when
it grew by at least 5 points and at least one second passed since the
last publish. An event is a pair of the transferred byte amount and the
current clock reading. -/
def trackerStep (total : Nat) (s : TrackerState) (ev : Nat × Nat) :
    TrackerState × Option Nat :=
  let uploaded := s.uploaded + ev.1
  let percent := trackerPercent total uploaded
  let now := ev.2
  if (percent = 100 ∧ s.last_percent < 100) ∨
      (s.last_percent + 5 ≤ percent ∧ s.last_update_time + 1 ≤ now) then
    (⟨uploaded, percent, now⟩, some percent)
  else
    ({ s with uploaded := uploaded }, none)

/-- Folds `trackerStep` over a callback sequence, collecting the
published progress values in order. -/
def trackerRun (total : Nat) (s : TrackerState) (evs : List (Nat × Nat)) :
    TrackerState × List Nat :=
  match evs with
  | [] => (s, [])
  | e :: rest =>
    let step := trackerStep total s e
    let tail := trackerRun total step.1 rest
    (tail.1, step.2.toList ++ tail.2)

/-- The initial tracker state of `ProgressTracker.__init__`. -/
def trackerInit : TrackerState := ⟨0, 0, 0⟩

/-- A part descriptor passed to `complete_multipart_upload`
(`src/repositories/multipart_methods.py`). -/
structure MPart where
  part_number : Nat
  etag : String
deriving DecidableEq, Repr

instance : IsTotal MPart (fun a b => a.part_number ≤ b.part_number) :=
  ⟨fun a b => Nat.le_total a.part_number b.part_number⟩

instance : IsTrans MPart (fun a b => a.part_number ≤ b.part_number) :=
  ⟨fun _ _ _ h1 h2 => Nat.le_trans h1 h2⟩

/-- Embedding of the `MultipartUpload.Parts` payload built by
`complete_multipart_upload` in `src/repositories/multipart_methods.py`
(identical in `multipart_methods_clean.py`): the parts sorted ascending
by `part_number` (Python `sorted` is a stable sort, modelled by
insertion sort) and projected to `(PartNumber, ETag)` pairs. -/
def multipart_upload_parts (parts : List MPart) : List (Nat × String) :=
  (parts.insertionSort fun a b => a.part_number ≤ b.part_number).map
    fun p => (p.part_number, p.etag)

/-- Errors of the multipart service methods
(`src/services/multipart_service_methods.py`). -/
inductive MpError where
  | notFound
  | alreadyCompleted
  | invalidUploadId
  | providerError (msg : String)
deriving DecidableEq, Repr

/-- Result of a multipart service call: outcome, resulting record store,
and the storage-provider operations invoked. -/
structure MpResult where
  result : Except MpError Unit
  records : List DumaStoredFile
  providerCalls : List String
deriving Repr

/-- Embedding of the service-level `complete_multipart_upload`
(`src/services/multipart_service_methods.py`): fetch the record by user
and id, reject when absent, already `completed`, or when the given
`upload_id` differs from the stored session id — all before the provider
finalize call; otherwise finalize at the provider (outcome supplied) and
update the record to `completed` with the object URL, or to `failed`
with the captured reason. -/
def complete_multipart_upload (recs : List DumaStoredFile)
    (file_id user_id : Nat) (upload_id : String) (_parts : List MPart)
    (provider_outcome : Except String Unit) (object_url : String) :
    MpResult :=
  match recs.find? (fun r => r.id == file_id && r.user_id == user_id) with
  | none => ⟨.error .notFound, recs, []⟩
  | some r =>
    if r.upload_status == "completed" then
      ⟨.error .alreadyCompleted, recs, []⟩
    else if r.multipartUploadId != some upload_id then
      ⟨.error .invalidUploadId, recs, []⟩
    else
      match provider_outcome with
      | .ok _ =>
          ⟨.ok (),
            update_file_status_urls_reason recs file_id "completed"
              (some object_url) none,
            ["complete_multipart_upload"]⟩
      | .error e =>
          ⟨.error (.providerError e),
            update_file_status_urls_reason recs file_id "failed" none (some e),
            ["complete_multipart_upload"]⟩

/-- Embedding of the service-level `abort_multipart_upload`
(`src/services/multipart_service_methods.py`): fetch the record by user
and id, reject when absent or when the given `upload_id` differs from
the stored session id — before the provider call; otherwise ask the
provider to discard the parts (best effort, the storage layer swallows
provider errors) and transition the record to `failed` with reason
`Upload aborted by user`. No check of the current status is made. -/
def abort_multipart_upload (recs : List DumaStoredFile)
    (file_id user_id : Nat) (upload_id : String) : MpResult :=
  match recs.find? (fun r => r.id == file_id && r.user_id == user_id) with
  | none => ⟨.error .notFound, recs, []⟩
  | some r =>
    if r.multipartUploadId != some upload_id then
      ⟨.error .invalidUploadId, recs, []⟩
    else
      ⟨.ok (),
        update_file_status_urls_reason recs file_id "failed" none
          (some "Upload aborted by user"),
        ["abort_multipart_upload"]⟩

end Ben

namespace Ben

theorem ceilDiv_le_iff {b : Nat} (hb : 0 < b) (a c : Nat) :
    ceilDiv a b ≤ c ↔ a ≤ b * c := by
  unfold ceilDiv
  rw [Nat.div_le_iff_le_mul_add_pred hb]
  omega

theorem le_mul_ceilDiv {b : Nat} (hb : 0 < b) (a : Nat) :
    a ≤ b * ceilDiv a b :=
  (ceilDiv_le_iff hb a (ceilDiv a b)).mp le_rfl

theorem ceilDiv_ceilDiv_eq (n : Nat) (h : 10000 * 10000 ≤ n) :
    ceilDiv n (ceilDiv n 10000) = 10000 := by
  have hq1 : n ≤ 10000 * ceilDiv n 10000 := le_mul_ceilDiv (by norm_num) n
  have hq2 : 10000 * ceilDiv n 10000 ≤ n + 9999 := by
    unfold ceilDiv
    have := Nat.div_mul_le_self (n + 10000 - 1) 10000
    omega
  have hq3 : 10000 ≤ ceilDiv n 10000 := by
    by_contra hc
    have : ceilDiv n 10000 ≤ 9999 := by omega
    have := (ceilDiv_le_iff (b := 10000) (by norm_num) n 9999).mp this
    omega
  have hqpos : 0 < ceilDiv n 10000 := by omega
  apply Nat.le_antisymm
  · exact (ceilDiv_le_iff hqpos n 10000).mpr (by omega)
  · by_contra hc
    have h9 : ceilDiv n (ceilDiv n 10000) ≤ 9999 := by omega
    have := (ceilDiv_le_iff hqpos n 9999).mp h9
    omega

/-- Branch-level characterization of `calculate_part_size` at the default
`max_parts = 10000`. -/
theorem calculate_part_size_eq (n : Nat) :
    calculate_part_size n 10000 =
      if n < 104857600 then (10485760, ceilDiv n 10485760)
      else if n < 1073741824 then (104857600, ceilDiv n 104857600)
      else if n < 10737418240 then (524288000, ceilDiv n 524288000)
      else if n ≤ 10737418240000 then (1073741824, ceilDiv n 1073741824)
      else (ceilDiv n 10000, 10000) := by
  have a1 : ceilDiv n 10485760 ≤ 10000 ↔ n ≤ 104857600000 := by
    have := ceilDiv_le_iff (b := 10485760) (by norm_num) n 10000
    omega
  have a2 : ceilDiv n 104857600 ≤ 10000 ↔ n ≤ 1048576000000 := by
    have := ceilDiv_le_iff (b := 104857600) (by norm_num) n 10000
    omega
  have a3 : ceilDiv n 524288000 ≤ 10000 ↔ n ≤ 5242880000000 := by
    have := ceilDiv_le_iff (b := 524288000) (by norm_num) n 10000
    omega
  have a4 : ceilDiv n 1073741824 ≤ 10000 ↔ n ≤ 10737418240000 := by
    have := ceilDiv_le_iff (b := 1073741824) (by norm_num) n 10000
    omega
  have m1 : max (5 * 1024 * 1024) (min (10 * 1024 * 1024)
      (5 * 1024 * 1024 * 1024)) = (10485760 : Nat) := by norm_num
  have m2 : max (5 * 1024 * 1024) (min (100 * 1024 * 1024)
      (5 * 1024 * 1024 * 1024)) = (104857600 : Nat) := by norm_num
  have m3 : max (5 * 1024 * 1024) (min (500 * 1024 * 1024)
      (5 * 1024 * 1024 * 1024)) = (524288000 : Nat) := by norm_num
  have m4 : max (5 * 1024 * 1024) (min (1 * 1024 * 1024 * 1024)
      (5 * 1024 * 1024 * 1024)) = (1073741824 : Nat) := by norm_num
  by_cases h1 : n < 100 * 1024 * 1024
  · simp only [calculate_part_size]
    rw [if_pos h1, m1, if_neg (by omega), if_pos (by omega : n < 104857600)]
  · by_cases h2 : n < 1 * 1024 * 1024 * 1024
    · simp only [calculate_part_size]
      rw [if_neg h1, if_pos h2, m2, if_neg (by omega),
        if_neg (by omega : ¬ n < 104857600),
        if_pos (by omega : n < 1073741824)]
    · by_cases h3 : n < 10 * 1024 * 1024 * 1024
      · simp only [calculate_part_size]
        rw [if_neg h1, if_neg h2, if_pos h3, m3, if_neg (by omega),
          if_neg (by omega : ¬ n < 104857600),
          if_neg (by omega : ¬ n < 1073741824),
          if_pos (by omega : n < 10737418240)]
      · by_cases h4 : n ≤ 10737418240000
        · simp only [calculate_part_size]
          rw [if_neg h1, if_neg h2, if_neg h3, m4, if_neg (by omega),
            if_neg (by omega : ¬ n < 104857600),
            if_neg (by omega : ¬ n < 1073741824),
            if_neg (by omega : ¬ n < 10737418240),
            if_pos (by omega : n ≤ 10737418240000)]
        · simp only [calculate_part_size]
          rw [if_neg h1, if_neg h2, if_neg h3, m4, if_pos (by omega),
            if_neg (by omega : ¬ n < 104857600),
            if_neg (by omega : ¬ n < 1073741824),
            if_neg (by omega : ¬ n < 10737418240),
            if_neg (by omega : ¬ n ≤ 10737418240000)]

/-- C4 counterexample: the claim asserts `part_size <= 5 GiB` for every
`total_size >= 1`, but at `total_size = 10000 * 5 GiB + 1` the recomputed
part size `ceil(total_size / 10000)` exceeds 5 GiB because the clamp is
not re-applied after the recompute. -/
theorem c4_part_size_counterexample :
    (calculate_part_size 53687091200001 10000).1 = 5368709121 ∧
      5 * 1024 * 1024 * 1024 < (calculate_part_size 53687091200001 10000).1 := by
  constructor <;> decide

/-- C4 (amended): for every `total_size >= 1`, `calculate_part_size`
returns `(part_size, total_parts)` with `5 MiB <= part_size`,
`total_parts = ceil(total_size / part_size) <= 10000`,
`part_size * total_parts >= total_size`, and `part_size <= 5 GiB`
whenever `total_size <= 10000 * 5 GiB`; when the default part count
exceeds 10000 (that is `total_size > 10000 * 1 GiB`), the part size is
recomputed as `ceil(total_size / 10000)` without re-applying the clamp. -/
theorem c4_part_size_amended (n p t : Nat) (h1 : 1 ≤ n)
    (hpt : calculate_part_size n 10000 = (p, t)) :
    5 * 1024 * 1024 ≤ p ∧
      t = ceilDiv n p ∧
      t ≤ 10000 ∧
      n ≤ p * t ∧
      (n ≤ 10000 * (5 * 1024 * 1024 * 1024) → p ≤ 5 * 1024 * 1024 * 1024) ∧
      (10737418240000 < n → p = ceilDiv n 10000) := by
  rw [calculate_part_size_eq] at hpt
  by_cases c1 : n < 104857600
  · rw [if_pos c1] at hpt
    obtain ⟨hp, ht⟩ := Prod.mk.injEq .. ▸ hpt
    subst hp; subst ht
    refine ⟨by norm_num, rfl, ?_, le_mul_ceilDiv (by norm_num) n, ?_, ?_⟩
    · exact (ceilDiv_le_iff (by norm_num) n 10000).mpr (by omega)
    · intro _; norm_num
    · intro h; omega
  · by_cases c2 : n < 1073741824
    · rw [if_neg c1, if_pos c2] at hpt
      obtain ⟨hp, ht⟩ := Prod.mk.injEq .. ▸ hpt
      subst hp; subst ht
      refine ⟨by norm_num, rfl, ?_, le_mul_ceilDiv (by norm_num) n, ?_, ?_⟩
      · exact (ceilDiv_le_iff (by norm_num) n 10000).mpr (by omega)
      · intro _; norm_num
      · intro h; omega
    · by_cases c3 : n < 10737418240
      · rw [if_neg c1, if_neg c2, if_pos c3] at hpt
        obtain ⟨hp, ht⟩ := Prod.mk.injEq .. ▸ hpt
        subst hp; subst ht
        refine ⟨by norm_num, rfl, ?_, le_mul_ceilDiv (by norm_num) n, ?_, ?_⟩
        · exact (ceilDiv_le_iff (by norm_num) n 10000).mpr (by omega)
        · intro _; norm_num
        · intro h; omega
      · by_cases c4 : n ≤ 10737418240000
        · rw [if_neg c1, if_neg c2, if_neg c3, if_pos c4] at hpt
          obtain ⟨hp, ht⟩ := Prod.mk.injEq .. ▸ hpt
          subst hp; subst ht
          refine ⟨by norm_num, rfl, ?_, le_mul_ceilDiv (by norm_num) n, ?_, ?_⟩
          · exact (ceilDiv_le_iff (by norm_num) n 10000).mpr (by omega)
          · intro _; norm_num
          · intro h; omega
        · rw [if_neg c1, if_neg c2, if_neg c3, if_neg c4] at hpt
          obtain ⟨hp, ht⟩ := Prod.mk.injEq .. ▸ hpt
          subst hp; subst ht
          have hq1 : n ≤ 10000 * ceilDiv n 10000 := le_mul_ceilDiv (by norm_num) n
          refine ⟨?_, (ceilDiv_ceilDiv_eq n (by omega)).symm, le_rfl, ?_, ?_, fun _ => rfl⟩
          · by_contra hc
            have : ceilDiv n 10000 ≤ 5242879 := by omega
            have := (ceilDiv_le_iff (by norm_num) n 5242879).mp this
            omega
          · omega
          · intro h
            exact (ceilDiv_le_iff (by norm_num) n (5 * 1024 * 1024 * 1024)).mpr
              (by omega)

/-- C1: staging admission. With a submission that passes validation, the
staged upload is admitted exactly when the current non-failed usage plus
the incoming size stays within `storage_capacity_gb * 1024^3`; on
rejection no record is created and no storage-provider call was made. -/
theorem c1_capacity_invariant (st : AppSettings) (recs : List DumaStoredFile)
    (user_id dumapod_id limit_gb : Nat) (f : UploadMeta) (file_name : String)
    (incoming new_id : Nat)
    (hval : validate_file_upload st f = .ok ()) :
    ((stage_upload st recs user_id dumapod_id limit_gb f file_name incoming
        new_id).response = .ok new_id ↔
      get_total_usage recs dumapod_id + incoming ≤
        limit_gb * 1024 * 1024 * 1024) ∧
    (limit_gb * 1024 * 1024 * 1024 <
        get_total_usage recs dumapod_id + incoming →
      (stage_upload st recs user_id dumapod_id limit_gb f file_name incoming
          new_id).records = recs ∧
      (stage_upload st recs user_id dumapod_id limit_gb f file_name incoming
          new_id).providerCalls = []) := by
  unfold stage_upload
  rw [hval]
  by_cases hc : limit_gb * 1024 * 1024 * 1024 <
      get_total_usage recs dumapod_id + incoming
  · rw [if_pos hc]
    refine ⟨⟨(fun h => by cases h), (fun h => absurd hc (by omega))⟩,
      fun _ => ⟨rfl, rfl⟩⟩
  · rw [if_neg hc]
    exact ⟨⟨(fun _ => by omega), (fun _ => rfl)⟩, fun h => absurd h hc⟩

/-- Witness for `c1_capacity_invariant`: one completed record of 5 bytes
and one failed record of 7 bytes in pod 1, a 1 GB limit and an incoming
10-byte upload. -/
theorem c1_capacity_invariant_witness :
    ((stage_upload ⟨["video/mp4"], 1000⟩
        [⟨1, 1, 1, "a", "video/mp4", 5, "completed", none, none, none, none, none⟩,
         ⟨2, 1, 1, "b", "video/mp4", 7, "failed", none, none, none, none, none⟩]
        1 1 1 ⟨"video/mp4", some 10⟩ "c" 10 3).response = .ok 3 ↔
      get_total_usage
        [⟨1, 1, 1, "a", "video/mp4", 5, "completed", none, none, none, none, none⟩,
         ⟨2, 1, 1, "b", "video/mp4", 7, "failed", none, none, none, none, none⟩]
        1 + 10 ≤ 1 * 1024 * 1024 * 1024) ∧
    (1 * 1024 * 1024 * 1024 <
        get_total_usage
          [⟨1, 1, 1, "a", "video/mp4", 5, "completed", none, none, none, none, none⟩,
           ⟨2, 1, 1, "b", "video/mp4", 7, "failed", none, none, none, none, none⟩]
          1 + 10 →
      (stage_upload ⟨["video/mp4"], 1000⟩
          [⟨1, 1, 1, "a", "video/mp4", 5, "completed", none, none, none, none, none⟩,
           ⟨2, 1, 1, "b", "video/mp4", 7, "failed", none, none, none, none, none⟩]
          1 1 1 ⟨"video/mp4", some 10⟩ "c" 10 3).records =
        [⟨1, 1, 1, "a", "video/mp4", 5, "completed", none, none, none, none, none⟩,
         ⟨2, 1, 1, "b", "video/mp4", 7, "failed", none, none, none, none, none⟩] ∧
      (stage_upload ⟨["video/mp4"], 1000⟩
          [⟨1, 1, 1, "a", "video/mp4", 5, "completed", none, none, none, none, none⟩,
           ⟨2, 1, 1, "b", "video/mp4", 7, "failed", none, none, none, none, none⟩]
          1 1 1 ⟨"video/mp4", some 10⟩ "c" 10 3).providerCalls = []) :=
  c1_capacity_invariant _ _ 1 1 1 _ "c" 10 3 rfl

/-- C7: the claim (and the source docstring of `_get_client`) says a
transient client is built from the stored credential; instead, because
`storage_repo.py` imports neither `Config` nor `settings`, every call
with credentials raises `NameError` before any client is constructed —
here evaluated at a credential with region `us-east-1` (fails on
`Config`) and at one with no region (fails on `settings` inside the
region fallback). -/
theorem c7_custom_credentials_client :
    get_client [] (some "aws_s3")
        (some ⟨"AK", "SK", "bucket", none, some "us-east-1"⟩) =
      .error "NameError: name Config is not defined" ∧
    get_client [] (some "aws_s3")
        (some ⟨"AK", "SK", "bucket", none, none⟩) =
      .error "NameError: name settings is not defined" :=
  ⟨rfl, rfl⟩

/-- C9: the provider finalize payload built by the storage-level
`complete_multipart_upload` lists the parts sorted ascending by
`part_number`, and is a permutation of the submitted parts. -/
theorem c9_parts_sorted (parts : List MPart) :
    List.Sorted (fun a b : Nat × String => a.1 ≤ b.1)
      (multipart_upload_parts parts) ∧
    (multipart_upload_parts parts).Perm
      (parts.map fun p => (p.part_number, p.etag)) := by
  constructor
  · have hs := List.sorted_insertionSort
      (fun a b : MPart => a.part_number ≤ b.part_number) parts
    exact hs.map _ (fun a b h => h)
  · exact (List.perm_insertionSort
      (fun a b : MPart => a.part_number ≤ b.part_number) parts).map _

/-- C10 counterexample: a submission with an allowed MIME type and a
declared size of zero passes validation and is staged with a record
created, while the claim requires it to be rejected with no record. -/
theorem c10_zero_size_counterexample :
    validate_file_upload ⟨["video/mp4"], 1000⟩ ⟨"video/mp4", some 0⟩ =
      .ok () ∧
    (stage_upload ⟨["video/mp4"], 1000⟩ [] 1 1 1 ⟨"video/mp4", some 0⟩ "f" 0
        1).response = .ok 1 ∧
    (stage_upload ⟨["video/mp4"], 1000⟩ [] 1 1 1 ⟨"video/mp4", some 0⟩ "f" 0
        1).records.length = 1 :=
  ⟨rfl, rfl, rfl⟩

/-- C10 (amended): staging rejects a MIME type outside the allow-list
synchronously, before any I/O, with no record created and no provider
call; a zero declared size is not rejected — the size validator only
rejects a known nonzero size above the maximum, so a zero-size
submission passes validation. -/
theorem c10_validation_amended (st : AppSettings) (recs : List DumaStoredFile)
    (user_id dumapod_id limit_gb : Nat) (f : UploadMeta) (file_name : String)
    (content_len new_id : Nat) :
    (f.content_type ∉ st.allowed_file_types →
      stage_upload st recs user_id dumapod_id limit_gb f file_name
          content_len new_id =
        ⟨.error (.validation .unsupportedMediaType), recs, []⟩) ∧
    (f.content_type ∈ st.allowed_file_types → f.size = some 0 →
      validate_file_upload st f = .ok ()) := by
  constructor
  · intro hmem
    unfold stage_upload validate_file_upload validate_file_type
    rw [if_neg hmem]
  · intro hmem hz
    unfold validate_file_upload validate_file_type validate_file_size
    rw [if_pos hmem, hz]
    simp

/-- Witness for `c10_validation_amended`: a disallowed MIME type is
rejected with the store unchanged, and an allowed type of size zero
passes validation. -/
theorem c10_validation_amended_witness :
    stage_upload ⟨["video/mp4"], 1000⟩ [] 1 1 1 ⟨"app/x", some 5⟩ "f" 5 1 =
      ⟨.error (.validation .unsupportedMediaType), [], []⟩ ∧
    validate_file_upload ⟨["video/mp4"], 1000⟩ ⟨"video/mp4", some 0⟩ =
      .ok () :=
  ⟨(c10_validation_amended ⟨["video/mp4"], 1000⟩ [] 1 1 1 ⟨"app/x", some 5⟩
      "f" 5 1).1 (by decide),
   (c10_validation_amended ⟨["video/mp4"], 1000⟩ [] 1 1 1
      ⟨"video/mp4", some 0⟩ "f" 0 1).2 (by decide) rfl⟩

theorem find?_map_ite (g : DumaStoredFile → DumaStoredFile)
    (hg : ∀ r, (g r).id = r.id) (recs : List DumaStoredFile) (fid : Nat) :
    ((recs.map fun r => if r.id == fid then g r else r).find?
        (fun r => r.id == fid)) =
      (recs.find? (fun r => r.id == fid)).map g := by
  induction recs with
  | nil => rfl
  | cons a l ih =>
    by_cases h : a.id = fid
    · have hb : (a.id == fid) = true := beq_iff_eq.mpr h
      have hb2 : ((g a).id == fid) = true := by rw [hg a]; exact hb
      simp only [List.map_cons, List.find?_cons, hb, if_true, hb2]
      rfl
    · have hb : (a.id == fid) = false := beq_eq_false_iff_ne.mpr h
      have hfa : (if (a.id == fid) = true then g a else a) = a :=
        if_neg (by simp [hb])
      simp only [List.map_cons, List.find?_cons, hfa, hb, Bool.false_eq_true,
        if_false]
      exact ih

theorem update_failed_as_map (recs : List DumaStoredFile) (fid : Nat) :
    update_file_status_and_urls recs fid "failed" none none none =
      recs.map fun r =>
        if r.id == fid then { r with upload_status := "failed" } else r := rfl

/-- C2 counterexample: pod with S3 and Wasabi enabled, the S3 upload
succeeds and the Wasabi upload fails; since the gathered await is not
shielded, the record ends `failed` with no URL column set, not
`completed` with the S3 URL as the claim states. Both uploads were
started. -/
theorem c2_partial_failure_counterexample :
    process_background_upload
        [⟨1, 1, 1, "f", "video/mp4", 10, "pending", none, none, none, none, none⟩]
        1 ⟨true, true, false, false, false, false⟩ (fun _ => none)
        (fun p => p == .aws_s3) (fun _ => "bucket") "k" =
      ⟨[⟨1, 1, 1, "f", "video/mp4", 10, "failed", none, none, none, none, none⟩],
        [.aws_s3, .wasabi]⟩ := by
  rfl

/-- C2 (amended): in a run with two or more eligible providers where at
least one upload succeeds and at least one fails, the uploads for every
eligible provider are started, but the failure propagates out of the
gathered await: the record ends with `upload_status` `failed`, every URL
column and `failed_reason` left unchanged (unset). -/
theorem c2_partial_failure_amended (recs : List DumaStoredFile)
    (file_id : Nat) (pod : PodFlags)
    (stored_creds : StorageProvider → Option ProviderCredential)
    (upload_ok : StorageProvider → Bool)
    (default_bucket : StorageProvider → String) (storage_key : String)
    (hlen : 2 ≤ (providers_to_upload pod stored_creds).length)
    (hfound : (recs.find? (fun r => r.id == file_id)).isSome = true)
    (_hsucc : ∃ c ∈ providers_to_upload pod stored_creds,
      upload_ok c.provider = true)
    (hfail : ∃ c ∈ providers_to_upload pod stored_creds,
      upload_ok c.provider = false) :
    (process_background_upload recs file_id pod stored_creds upload_ok
        default_bucket storage_key).records.find? (fun r => r.id == file_id) =
      (recs.find? (fun r => r.id == file_id)).map
        (fun r => { r with upload_status := "failed" }) ∧
    (process_background_upload recs file_id pod stored_creds upload_ok
        default_bucket storage_key).sdkCalls =
      (providers_to_upload pod stored_creds).map (fun c => c.provider) := by
  obtain ⟨r0, hr0⟩ := Option.isSome_iff_exists.mp hfound
  have hemp : (providers_to_upload pod stored_creds).isEmpty = false := by
    cases hps : providers_to_upload pod stored_creds with
    | nil => rw [hps] at hlen; simp at hlen
    | cons a l => simp [List.isEmpty]
  have hall : (providers_to_upload pod stored_creds).all
      (fun c => upload_ok c.provider) = false := by
    obtain ⟨c, hc, hcf⟩ := hfail
    rcases hb : (providers_to_upload pod stored_creds).all
        (fun c => upload_ok c.provider) with _ | _
    · rfl
    · have := List.all_eq_true.mp hb c hc
      rw [hcf] at this; cases this
  simp only [process_background_upload, hemp, hr0, hall, Bool.false_eq_true,
    if_false]
  refine ⟨?_, ?_⟩
  · rw [update_failed_as_map,
      find?_map_ite (fun r => { r with upload_status := "failed" })
        (fun _ => rfl) recs file_id, hr0]
  · first
    | rfl
    | trivial

/-- Witness for `c2_partial_failure_amended` at the concrete two-provider
run with an S3 success and a Wasabi failure. -/
theorem c2_partial_failure_amended_witness :
    (process_background_upload
        [⟨1, 1, 1, "f", "video/mp4", 10, "pending", none, none, none, none, none⟩]
        1 ⟨true, true, false, false, false, false⟩ (fun _ => none)
        (fun p => p == .aws_s3) (fun _ => "bucket") "k").records.find?
        (fun r => r.id == 1) =
      (([⟨1, 1, 1, "f", "video/mp4", 10, "pending", none, none, none, none,
          none⟩] : List DumaStoredFile).find? (fun r => r.id == 1)).map
        (fun r => { r with upload_status := "failed" }) ∧
    (process_background_upload
        [⟨1, 1, 1, "f", "video/mp4", 10, "pending", none, none, none, none, none⟩]
        1 ⟨true, true, false, false, false, false⟩ (fun _ => none)
        (fun p => p == .aws_s3) (fun _ => "bucket") "k").sdkCalls =
      (providers_to_upload ⟨true, true, false, false, false, false⟩
        (fun _ => none)).map (fun c => c.provider) :=
  c2_partial_failure_amended
    [⟨1, 1, 1, "f", "video/mp4", 10, "pending", none, none, none, none, none⟩]
    1 ⟨true, true, false, false, false, false⟩ (fun _ => none)
    (fun p => p == .aws_s3) (fun _ => "bucket") "k" (by decide) (by decide)
    ⟨⟨.aws_s3, none⟩, by decide, by decide⟩
    ⟨⟨.wasabi, none⟩, by decide, by decide⟩

/-- C3: at a pod whose only enabled provider requires custom credentials
that are absent, the background replicator resolves zero eligible
providers and returns early: no storage SDK is called, and — against the
claim and the inline comment in the source — the record is left
untouched in `pending` with no failure reason, instead of transitioning
to `failed`. -/
theorem c3_no_providers_eval :
    process_background_upload
        [⟨1, 1, 1, "f", "video/mp4", 10, "pending", none, none, none, none, none⟩]
        1 ⟨true, false, false, true, false, false⟩ (fun _ => none)
        (fun _ => true) (fun _ => "bucket") "k" =
      ⟨[⟨1, 1, 1, "f", "video/mp4", 10, "pending", none, none, none, none, none⟩],
        []⟩ := by
  rfl

/-- C8: a complete-multipart or abort-multipart call whose `upload_id`
differs from the session id stored on the record is rejected with an
error before any storage-provider call, and the record store is left
unchanged. -/
theorem c8_upload_id_integrity (recs : List DumaStoredFile)
    (file_id user_id : Nat) (upload_id : String) (parts : List MPart)
    (outcome : Except String Unit) (url : String) (r : DumaStoredFile)
    (hfind : recs.find? (fun x => x.id == file_id && x.user_id == user_id) =
      some r)
    (hmm : r.multipartUploadId ≠ some upload_id) :
    ((∃ e, (complete_multipart_upload recs file_id user_id upload_id parts
        outcome url).result = .error e) ∧
      (complete_multipart_upload recs file_id user_id upload_id parts
        outcome url).records = recs ∧
      (complete_multipart_upload recs file_id user_id upload_id parts
        outcome url).providerCalls = []) ∧
    abort_multipart_upload recs file_id user_id upload_id =
      ⟨.error .invalidUploadId, recs, []⟩ := by
  have hbne : (r.multipartUploadId != some upload_id) = true := by
    simp only [bne_iff_ne, ne_eq]
    exact hmm
  constructor
  · simp only [complete_multipart_upload, hfind]
    by_cases hc : (r.upload_status == "completed") = true
    · rw [if_pos hc]
      exact ⟨⟨.alreadyCompleted, rfl⟩, rfl, rfl⟩
    · rw [if_neg hc, if_pos hbne]
      exact ⟨⟨.invalidUploadId, rfl⟩, rfl, rfl⟩
  · simp only [abort_multipart_upload, hfind]
    rw [if_pos hbne]

/-- Witness for `c8_upload_id_integrity` at a pending record holding
session id `mp1`, called with the non-matching id `wrong`. -/
theorem c8_upload_id_integrity_witness :
    ((∃ e, (complete_multipart_upload
        [⟨1, 1, 1, "f", "video/mp4", 10, "pending", none, none, none, none,
          some "mp1"⟩] 1 1 "wrong" [] (.ok ()) "u").result = .error e) ∧
      (complete_multipart_upload
        [⟨1, 1, 1, "f", "video/mp4", 10, "pending", none, none, none, none,
          some "mp1"⟩] 1 1 "wrong" [] (.ok ()) "u").records =
        [⟨1, 1, 1, "f", "video/mp4", 10, "pending", none, none, none, none,
          some "mp1"⟩] ∧
      (complete_multipart_upload
        [⟨1, 1, 1, "f", "video/mp4", 10, "pending", none, none, none, none,
          some "mp1"⟩] 1 1 "wrong" [] (.ok ()) "u").providerCalls = []) ∧
    abort_multipart_upload
        [⟨1, 1, 1, "f", "video/mp4", 10, "pending", none, none, none, none,
          some "mp1"⟩] 1 1 "wrong" =
      ⟨.error .invalidUploadId,
        [⟨1, 1, 1, "f", "video/mp4", 10, "pending", none, none, none, none,
          some "mp1"⟩], []⟩ :=
  c8_upload_id_integrity
    [⟨1, 1, 1, "f", "video/mp4", 10, "pending", none, none, none, none,
      some "mp1"⟩] 1 1 "wrong" [] (.ok ()) "u" _ rfl (by decide)

theorem trackerPercent_mono (total : Nat) {u v : Nat} (h : u ≤ v) :
    trackerPercent total u ≤ trackerPercent total v :=
  Nat.div_le_div_right (Nat.mul_le_mul_right 100 h)

theorem trackerRun_inv (total : Nat) (evs : List (Nat × Nat)) :
    ∀ s : TrackerState,
      List.Chain' (· ≤ ·) (trackerRun total s evs).2 ∧
      (∀ x ∈ (trackerRun total s evs).2, s.last_percent ≤ x ∧
        x ≤ (trackerRun total s evs).1.last_percent) ∧
      s.last_percent ≤ (trackerRun total s evs).1.last_percent ∧
      ((trackerRun total s evs).2 = [] ∧
          (trackerRun total s evs).1.last_percent = s.last_percent ∨
        (trackerRun total s evs).2.getLast? =
          some (trackerRun total s evs).1.last_percent) := by
  induction evs with
  | nil =>
    intro s
    refine ⟨List.chain'_nil, ?_, le_rfl, Or.inl ⟨rfl, rfl⟩⟩
    intro x hx
    cases hx
  | cons e rest ih =>
    intro s
    by_cases hC : (trackerPercent total (s.uploaded + e.1) = 100 ∧
        s.last_percent < 100) ∨
        (s.last_percent + 5 ≤ trackerPercent total (s.uploaded + e.1) ∧
          s.last_update_time + 1 ≤ e.2)
    · have hstep : trackerStep total s e =
          (⟨s.uploaded + e.1, trackerPercent total (s.uploaded + e.1), e.2⟩,
            some (trackerPercent total (s.uploaded + e.1))) := by
        simp only [trackerStep, if_pos hC]
      obtain ⟨ih1, ih2, ih3, ih4⟩ :=
        ih ⟨s.uploaded + e.1, trackerPercent total (s.uploaded + e.1), e.2⟩
      have hsp : s.last_percent ≤ trackerPercent total (s.uploaded + e.1) := by
        rcases hC with ⟨h1, h2⟩ | ⟨h1, h2⟩ <;> omega
      simp only [trackerRun, hstep, Option.toList, List.cons_append,
        List.nil_append]
      refine ⟨?_, ?_, ?_, ?_⟩
      · refine List.chain'_cons'.mpr ⟨?_, ih1⟩
        intro y hy
        exact (ih2 y (List.mem_of_mem_head? hy)).1
      · intro x hx
        rcases List.mem_cons.mp hx with hx | hx
        · subst hx
          exact ⟨hsp, ih3⟩
        · exact ⟨hsp.trans (ih2 x hx).1, (ih2 x hx).2⟩
      · exact hsp.trans ih3
      · right
        rcases ih4 with ⟨hnil, hlp⟩ | hs
        · rw [hnil, hlp]
          rfl
        · rcases hps : (trackerRun total
              ⟨s.uploaded + e.1, trackerPercent total (s.uploaded + e.1),
                e.2⟩ rest).2 with _ | ⟨b, bs⟩
          · rw [hps] at hs
            simp at hs
          · rw [hps] at hs
            rw [List.getLast?_cons_cons]
            exact hs
    · have hstep : trackerStep total s e =
          ({ s with uploaded := s.uploaded + e.1 }, none) := by
        simp only [trackerStep, if_neg hC]
      obtain ⟨ih1, ih2, ih3, ih4⟩ := ih { s with uploaded := s.uploaded + e.1 }
      simp only [trackerRun, hstep, Option.toList, List.nil_append]
      exact ⟨ih1, ih2, ih3, ih4⟩

theorem trackerRun_last100 (total : Nat) (evs : List (Nat × Nat)) :
    ∀ s : TrackerState, evs ≠ [] →
      trackerPercent total (s.uploaded + (evs.map Prod.fst).sum) = 100 →
      s.last_percent ≤ trackerPercent total s.uploaded →
      (trackerRun total s evs).1.last_percent = 100 := by
  induction evs with
  | nil =>
    intro s h
    exact absurd rfl h
  | cons e rest ih =>
    intro s _ hend hpre
    have hmono : trackerPercent total (s.uploaded + e.1) ≤
        trackerPercent total (s.uploaded + (e.1 + (rest.map Prod.fst).sum)) :=
      trackerPercent_mono total (by omega)
    simp only [List.map_cons, List.sum_cons] at hend
    by_cases hC : (trackerPercent total (s.uploaded + e.1) = 100 ∧
        s.last_percent < 100) ∨
        (s.last_percent + 5 ≤ trackerPercent total (s.uploaded + e.1) ∧
          s.last_update_time + 1 ≤ e.2)
    · have hstep : trackerStep total s e =
          (⟨s.uploaded + e.1, trackerPercent total (s.uploaded + e.1), e.2⟩,
            some (trackerPercent total (s.uploaded + e.1))) := by
        simp only [trackerStep, if_pos hC]
      by_cases hr : rest = []
      · subst hr
        simp only [trackerRun, hstep]
        simp only [List.map_nil, List.sum_nil, Nat.add_zero] at hend
        exact hend
      · simp only [trackerRun, hstep]
        apply ih _ hr
        · show trackerPercent total
            (s.uploaded + e.1 + (rest.map Prod.fst).sum) = 100
          rw [Nat.add_assoc]
          exact hend
        · exact le_rfl
    · have hstep : trackerStep total s e =
          ({ s with uploaded := s.uploaded + e.1 }, none) := by
        simp only [trackerStep, if_neg hC]
      by_cases hr : rest = []
      · subst hr
        simp only [trackerRun, hstep]
        simp only [List.map_nil, List.sum_nil, Nat.add_zero] at hend
        push_neg at hC
        have h1 := hpre.trans (trackerPercent_mono total
          (Nat.le_add_right s.uploaded e.1))
        show s.last_percent = 100
        omega
      · simp only [trackerRun, hstep]
        apply ih _ hr
        · show trackerPercent total
            (s.uploaded + e.1 + (rest.map Prod.fst).sum) = 100
          rw [Nat.add_assoc]
          exact hend
        · exact hpre.trans (trackerPercent_mono total
            (Nat.le_add_right s.uploaded e.1))

/-- C5: for a callback sequence with positive byte amounts summing to a
positive `total_size`, the `ProgressTracker` publishes a non-decreasing
sequence of progress values whose final element is exactly 100; a value
is published only under the throttling condition built into
`trackerStep`. -/
theorem c5_progress_monotone (total : Nat) (evs : List (Nat × Nat))
    (htot : 0 < total)
    (hsum : (evs.map Prod.fst).sum = total)
    (hpos : ∀ e ∈ evs, 0 < e.1) :
    List.Chain' (· ≤ ·) (trackerRun total trackerInit evs).2 ∧
    (trackerRun total trackerInit evs).2.getLast? = some 100 := by
  have hne : evs ≠ [] := by
    intro h
    subst h
    simp at hsum
    omega
  have h100 : (trackerRun total trackerInit evs).1.last_percent = 100 := by
    apply trackerRun_last100 total evs trackerInit hne
    · show trackerPercent total (0 + (evs.map Prod.fst).sum) = 100
      rw [hsum, Nat.zero_add]
      unfold trackerPercent
      exact Nat.mul_div_cancel_left 100 htot
    · show (0 : Nat) ≤ trackerPercent total 0
      exact Nat.zero_le _
  obtain ⟨h1, _, _, h4⟩ := trackerRun_inv total evs trackerInit
  refine ⟨h1, ?_⟩
  rcases h4 with ⟨_, hlp⟩ | hs
  · rw [h100] at hlp
    simp [trackerInit] at hlp
  · rw [hs, h100]

/-- Witness for `c5_progress_monotone`: a single 10-byte callback on a
10-byte upload publishes exactly `[100]`. -/
theorem c5_progress_monotone_witness :
    List.Chain' (· ≤ ·) (trackerRun 10 trackerInit [(10, 5)]).2 ∧
    (trackerRun 10 trackerInit [(10, 5)]).2.getLast? = some 100 :=
  c5_progress_monotone 10 [(10, 5)] (by decide) (by decide) (by decide)

/-- Witness for `c4_part_size_amended` at `total_size = 3`. -/
theorem c4_part_size_amended_witness :
    5 * 1024 * 1024 ≤ 10485760 ∧
      1 = ceilDiv 3 10485760 ∧
      1 ≤ 10000 ∧
      3 ≤ 10485760 * 1 ∧
      (3 ≤ 10000 * (5 * 1024 * 1024 * 1024) → 10485760 ≤ 5 * 1024 * 1024 * 1024) ∧
      (10737418240000 < 3 → 10485760 = ceilDiv 3 10000) :=
  c4_part_size_amended 3 10485760 1 (by decide) (by decide)

end Ben
